import Mathlib

/-!
Shallow embedding of the virtual-classroom assignment/submission workflow.

The embedding translates the JavaScript services and DAOs into pure Lean
functions over an explicit database state:
* `DBState` models the four relational tables of `src/database/setup.sql`
  (users, assignments, student_assignments, submissions) together with the
  SERIAL id counters.
* DAO functions (`saveSubmission`, `updateStudentAssignmentStatus`,
  `saveAssignment`, `saveStudentAssignments`, `updateAssignmentDAO`,
  `deleteAssignmentDAO`, `getTutorAssignments`, `getStudentAssignments`,
  `fetchUpcomingAssignments`) are translated from
  `src/dao/AssignmentDAO.js`, the submissions DAO and
  `src/services/NotificationService.js`.
* Service functions (`createAssignment`, `updateAssignmentService`,
  `deleteAssignment`, `addSubmission`) are translated from
  `src/services/AssignmentService.js` and the submissions service.
* The transactional unit of `src/utils/DatabaseTransaction.js` is modelled
  by running the statements of a transaction on a tentative state and
  discarding that state (rollback) when any statement fails; external
  failures (S3, relational engine) are injected through explicit boolean
  fault parameters so that rollback behaviour can be stated.
* JavaScript errors are modelled by the closed type `Err`; constructors
  that carry an HTTP `status` field in the source (403/404) expose it via
  `Err.status`, all other thrown errors have no status (`none`).

Timestamps are abstract `Int` minutes; `now` is always passed explicitly.
-/

namespace VC

/-- Role ids from `constants/Roles`, pinned by the insertion order of
`setup.sql` (`Tutor` first, `Student` second). -/
def Roles.TUTOR : Nat := 1

/-- See `Roles.TUTOR`. -/
def Roles.STUDENT : Nat := 2

/-- Status ids from `constants/SubmissionStatus`, pinned by the insertion
order of `setup.sql` (`Submitted` first, `Pending` second). -/
def SubmissionStatus.SUBMITTED : Nat := 1

/-- See `SubmissionStatus.SUBMITTED`. -/
def SubmissionStatus.PENDING : Nat := 2

/-- A row of `classroom.tblm_users`. -/
structure User where
  id : Nat
  username : String
  email : String
  roleId : Nat
deriving Repr, DecidableEq

/-- A row of `classroom.tblm_assignments`. -/
structure Assignment where
  id : Nat
  tutorId : Nat
  title : String
  description : Option String
  publishedAt : Int
  deadline : Int
  s3Url : Option String
deriving Repr, DecidableEq

/-- A row of `classroom.tblt_student_assignments`. -/
structure StudentAssignment where
  assignmentId : Nat
  studentId : Nat
  statusId : Nat
deriving Repr, DecidableEq

/-- A row of `classroom.tblm_submissions`. -/
structure Submission where
  id : Nat
  assignmentId : Nat
  studentId : Nat
  s3Url : String
deriving Repr, DecidableEq

/-- The relational state: the four tables plus the SERIAL counters for the
two tables whose generated ids the services read back. -/
structure DBState where
  users : List User
  assignments : List Assignment
  studentAssignments : List StudentAssignment
  submissions : List Submission
  nextAssignmentId : Nat
  nextSubmissionId : Nat
deriving Repr, DecidableEq

/-- The errors thrown by the services and DAOs.  `forbidden` and
`notFound` correspond to JS errors whose `status` field is set to 403/404;
every other constructor corresponds to an error object without a `status`
field (surfaced as HTTP 500 by the controllers). -/
inductive Err where
  /-- `error.status = 403` set by a role or ownership check. -/
  | forbidden (msg : String)
  /-- `error.status = 404` (assignment not found). -/
  | notFound (msg : String)
  /-- Plain `Error` thrown by `UserDAO.getUserByUsername` when no row matches. -/
  | userNotFound
  /-- Postgres unique-constraint violation (23505) on a duplicate insert;
  this is the spec taxonomy's `Conflict` condition. -/
  | uniqueViolation
  /-- Plain `Error("No fields provided to update")` thrown by
  `AssignmentDAO.updateAssignment`. -/
  | noFieldsToUpdate
  /-- JS `TypeError` from reading a property of `undefined`
  (e.g. `file.originalname` when no file was uploaded). -/
  | typeErrorUndefined
  /-- Failure of an S3 call (injected). -/
  | storageError
  /-- Failure of a relational statement (injected). -/
  | dbError
deriving Repr, DecidableEq

/-- The `status` field the controllers read via `error.status || 500`. -/
def Err.status : Err → Option Nat
  | .forbidden _ => some 403
  | .notFound _ => some 404
  | _ => none

/-- Whether an error is a Forbidden classification (status 403). -/
def Err.isForbidden : Err → Bool
  | .forbidden _ => true
  | _ => false

deriving instance DecidableEq for Except

/-- An uploaded multipart file as the services see it (`file.originalname`). -/
structure FileUpload where
  originalname : String
deriving Repr, DecidableEq

/-- The URL the services build after a successful S3 put. -/
def s3UrlOf (fileKey : String) : String :=
  "https://bucket.s3.region.amazonaws.com/" ++ fileKey

/-- `UserDAO.getUserByUsername`: SELECT by unique username, throwing a plain
error when no row matches. -/
def getUserByUsername (db : DBState) (username : String) : Except Err User :=
  match db.users.find? (fun u => u.username == username) with
  | some u => .ok u
  | none => .error .userNotFound

/-- `SubmissionsDAO.getStudentAssignment`: SELECT the row for
(assignment_id, student_id), `null` when absent. -/
def getStudentAssignment (db : DBState) (assignmentId studentId : Nat) :
    Option StudentAssignment :=
  db.studentAssignments.find?
    (fun sa => sa.assignmentId == assignmentId && sa.studentId == studentId)

/-- `SubmissionsDAO.saveSubmission`: INSERT INTO tblm_submissions; the
UNIQUE(assignment_id, student_id) constraint makes the insert fail when a
row for the pair already exists. -/
def saveSubmission (db : DBState) (assignmentId studentId : Nat)
    (fileUrl : String) : Except Err (Submission × DBState) :=
  if db.submissions.any
      (fun s => s.assignmentId == assignmentId && s.studentId == studentId) then
    .error .uniqueViolation
  else
    let sub : Submission :=
      ⟨db.nextSubmissionId, assignmentId, studentId, fileUrl⟩
    .ok (sub, { db with
      submissions := db.submissions ++ [sub],
      nextSubmissionId := db.nextSubmissionId + 1 })

/-- `SubmissionsDAO.updateStudentAssignmentStatus`: UPDATE
tblt_student_assignments SET status_id = SUBMITTED WHERE the pair matches. -/
def updateStudentAssignmentStatus (db : DBState) (assignmentId studentId : Nat) :
    DBState :=
  { db with studentAssignments := db.studentAssignments.map (fun sa =>
      if sa.assignmentId == assignmentId && sa.studentId == studentId then
        { sa with statusId := SubmissionStatus.SUBMITTED }
      else sa) }

/-- Injected relational failures for the two statements inside the
submission transaction. -/
structure SubmitFaults where
  insertFails : Bool
  updateFails : Bool
deriving Repr, DecidableEq

/-- The transactional block of `SubmissionsService.addSubmission`: the
submission INSERT followed by the status UPDATE, on a tentative state.
Any failure makes the whole block return an error; the caller then rolls
back, i.e. keeps the pre-transaction state. -/
def submitTx (db : DBState) (assignmentId studentId : Nat) (fileUrl : String)
    (faults : SubmitFaults) : Except Err (Submission × DBState) :=
  if faults.insertFails then .error Err.dbError
  else
    match saveSubmission db assignmentId studentId fileUrl with
    | .error e => .error e
    | .ok (sub, db1) =>
      if faults.updateFails then .error Err.dbError
      else .ok (sub, updateStudentAssignmentStatus db1 assignmentId studentId)

/-- Result of one `addSubmission` call: the returned value or error, the
database state after the call, and the list of S3 keys uploaded during the
call. -/
structure SubmissionOutcome where
  result : Except Err Submission
  db : DBState
  uploads : List String
deriving Repr, DecidableEq

/-- `SubmissionsService.addSubmission`: role check, assignment-mapping
check, S3 upload, then the transactional insert+update with rollback on
failure.  `file` is optional because the service never validates its
presence; `uuid` stands for the generated `uuidv4()` part of the key. -/
def addSubmission (db : DBState) (assignmentId : Nat) (studentUsername : String)
    (file : Option FileUpload) (uuid : String) (s3Fails : Bool)
    (faults : SubmitFaults) : SubmissionOutcome :=
  match getUserByUsername db studentUsername with
  | .error e => ⟨.error e, db, []⟩
  | .ok user =>
    if user.roleId ≠ Roles.STUDENT then
      ⟨.error (.forbidden "Only students can submit assignments"), db, []⟩
    else
      match getStudentAssignment db assignmentId user.id with
      | none =>
        ⟨.error (.forbidden "Student has not been assigned this assignment"), db, []⟩
      | some _ =>
        match file with
        | none => ⟨.error .typeErrorUndefined, db, []⟩
        | some f =>
          if s3Fails then ⟨.error .storageError, db, []⟩
          else
            match submitTx db assignmentId user.id
                (s3UrlOf (uuid ++ "-" ++ f.originalname)) faults with
            | .ok (sub, db2) => ⟨.ok sub, db2, [uuid ++ "-" ++ f.originalname]⟩
            | .error e => ⟨.error e, db, [uuid ++ "-" ++ f.originalname]⟩

/-- `AssignmentDAO.saveAssignment`: INSERT INTO tblm_assignments RETURNING
the new row (SERIAL id). -/
def saveAssignment (db : DBState) (tutorId : Nat) (title : String)
    (description : Option String) (publishedAt dueDate : Int)
    (fileUrl : String) : Assignment × DBState :=
  let a : Assignment :=
    ⟨db.nextAssignmentId, tutorId, title, description, publishedAt, dueDate,
     some fileUrl⟩
  (a, { db with
    assignments := db.assignments ++ [a],
    nextAssignmentId := db.nextAssignmentId + 1 })

/-- One VALUES row of `AssignmentDAO.saveStudentAssignments` under
ON CONFLICT (assignment_id, student_id) DO NOTHING: insert a PENDING row
unless the pair already exists. -/
def insertStudentAssignmentRow (db : DBState) (assignmentId studentId : Nat) :
    DBState :=
  if db.studentAssignments.any
      (fun sa => sa.assignmentId == assignmentId && sa.studentId == studentId) then
    db
  else
    { db with studentAssignments := db.studentAssignments ++
        [⟨assignmentId, studentId, SubmissionStatus.PENDING⟩] }

/-- `AssignmentDAO.saveStudentAssignments`: the multi-VALUES INSERT with
ON CONFLICT DO NOTHING, which also skips duplicates within the statement. -/
def saveStudentAssignments (db : DBState) (assignmentId : Nat)
    (studentIds : List Nat) : DBState :=
  studentIds.foldl (fun d sid => insertStudentAssignmentRow d assignmentId sid) db

/-- Injected relational failures for the statements inside the
assignment-creation transaction.  `fanoutFailAfter = some k` makes the
fan-out INSERT fail after tentatively writing `k` of its rows. -/
structure CreateFaults where
  insertAssignmentFails : Bool
  fanoutFailAfter : Option Nat
deriving Repr, DecidableEq

/-- The transactional block of `AssignmentService.createAssignment`: the
assignment INSERT then (when studentIds is non-empty) the fan-out INSERT.
On failure the tentative state - including any partially written fan-out
rows - is discarded by the caller's rollback. -/
def createTx (db : DBState) (tutorId : Nat) (title : String)
    (description : Option String) (publishedAt dueDate : Int)
    (fileUrl : String) (studentIds : List Nat) (faults : CreateFaults) :
    Except Err (Assignment × DBState) :=
  if faults.insertAssignmentFails then .error Err.dbError
  else
    let (a, db1) := saveAssignment db tutorId title description publishedAt
      dueDate fileUrl
    if studentIds.length > 0 then
      match faults.fanoutFailAfter with
      | some k =>
        let _partial := saveStudentAssignments db1 a.id (studentIds.take k)
        .error Err.dbError
      | none => .ok (a, saveStudentAssignments db1 a.id studentIds)
    else .ok (a, db1)

/-- Result of one `createAssignment` call. -/
structure CreateOutcome where
  result : Except Err Assignment
  db : DBState
deriving Repr, DecidableEq

/-- `AssignmentService.createAssignment`: TUTOR role check, S3 upload,
then the transaction (assignment insert + student fan-out) with rollback
on failure. -/
def createAssignment (db : DBState) (username title : String)
    (description : Option String) (publishedAt dueDate : Int)
    (file : FileUpload) (studentIds : List Nat) (uuid : String)
    (s3Fails : Bool) (faults : CreateFaults) : CreateOutcome :=
  match getUserByUsername db username with
  | .error e => ⟨.error e, db⟩
  | .ok user =>
    if user.roleId ≠ Roles.TUTOR then
      ⟨.error (.forbidden "Only TUTORS can create assignments"), db⟩
    else
      if s3Fails then ⟨.error .storageError, db⟩
      else
        match createTx db user.id title description publishedAt dueDate
            (s3UrlOf (uuid ++ "-" ++ file.originalname)) studentIds faults with
        | .ok (a, db2) => ⟨.ok a, db2⟩
        | .error e => ⟨.error e, db⟩

/-- `AssignmentDAO.getAssignmentById`: SELECT by primary key, `null` when
absent. -/
def getAssignmentById (db : DBState) (assignmentId : Nat) : Option Assignment :=
  db.assignments.find? (fun a => a.id == assignmentId)

/-- The dynamic field set of `AssignmentDAO.updateAssignment`: a SET clause
is emitted exactly for the fields that are not `undefined` in the request.
`description` carries an `Option` value because the column is nullable. -/
structure UpdateFields where
  title : Option String
  description : Option (Option String)
  dueDate : Option Int
  publishedAt : Option Int
  fileUrl : Option String
deriving Repr, DecidableEq

/-- Whether at least one SET clause would be emitted (`fields.length > 0`). -/
def UpdateFields.hasAny (f : UpdateFields) : Bool :=
  f.title.isSome || f.description.isSome || f.dueDate.isSome ||
    f.publishedAt.isSome || f.fileUrl.isSome

/-- Apply the emitted SET clauses to one row. -/
def applyFields (f : UpdateFields) (a : Assignment) : Assignment :=
  { a with
    title := f.title.getD a.title,
    description := f.description.getD a.description,
    deadline := f.dueDate.getD a.deadline,
    publishedAt := f.publishedAt.getD a.publishedAt,
    s3Url := match f.fileUrl with | some u => some u | none => a.s3Url }

/-- `AssignmentDAO.updateAssignment`: throws when no field is present,
otherwise UPDATE ... WHERE id = $n RETURNING * (first returned row, `none`
when no row matched). -/
def updateAssignmentDAO (db : DBState) (assignmentId : Nat)
    (f : UpdateFields) : Except Err (Option Assignment) × DBState :=
  if ¬ f.hasAny then (.error .noFieldsToUpdate, db)
  else
    ( .ok ((db.assignments.find? (fun a => a.id == assignmentId)).map
        (applyFields f)),
      { db with assignments := db.assignments.map (fun a =>
          if a.id == assignmentId then applyFields f a else a) } )

/-- The controller-built partial-update payload
(`AssignmentsController.updateAssignment`): only fields present in the
HTTP request appear; a new file, when present, is uploaded by the service
which then sets `fileUrl`. -/
structure UpdateData where
  title : Option String
  description : Option (Option String)
  dueDate : Option Int
  publishedAt : Option Int
  file : Option FileUpload
deriving Repr, DecidableEq

/-- The field set the service hands to the DAO, with `fileUrl` filled in
from the S3 upload when a file was supplied. -/
def UpdateData.toFields (u : UpdateData) (fileUrl : Option String) :
    UpdateFields :=
  ⟨u.title, u.description, u.dueDate, u.publishedAt, fileUrl⟩

/-- `AssignmentService.updateAssignment`: TUTOR role check, existence
check, ownership check, optional S3 upload of a replacement file, then the
single-row DAO update. -/
def updateAssignmentService (db : DBState) (assignmentId : Nat)
    (username : String) (u : UpdateData) (uuid : String) (s3Fails : Bool) :
    Except Err (Option Assignment) × DBState :=
  match getUserByUsername db username with
  | .error e => (.error e, db)
  | .ok user =>
    if user.roleId ≠ Roles.TUTOR then
      (.error (.forbidden "Only TUTORS can update assignments"), db)
    else
      match getAssignmentById db assignmentId with
      | none => (.error (.notFound "Assignment not found"), db)
      | some existing =>
        if existing.tutorId ≠ user.id then
          (.error (.forbidden "You can only update assignments you created"), db)
        else
          match u.file with
          | some f =>
            if s3Fails then (.error .storageError, db)
            else
              updateAssignmentDAO db assignmentId
                (u.toFields (some (s3UrlOf (uuid ++ "-" ++ f.originalname))))
          | none => updateAssignmentDAO db assignmentId (u.toFields none)

/-- `AssignmentDAO.deleteAssignment` plus the ON DELETE CASCADE policy of
`setup.sql`: deleting an assignment row also removes its
student-assignment and submission rows. -/
def deleteAssignmentDAO (db : DBState) (assignmentId : Nat) : DBState :=
  { db with
    assignments := db.assignments.filter (fun a => a.id ≠ assignmentId),
    studentAssignments :=
      db.studentAssignments.filter (fun sa => sa.assignmentId ≠ assignmentId),
    submissions :=
      db.submissions.filter (fun s => s.assignmentId ≠ assignmentId) }

/-- `AssignmentService.deleteAssignment`: TUTOR role check, existence
check, ownership check, S3 delete of the stored file when `s3Url` is set
(awaited with no surrounding catch, so an S3 failure propagates), then the
row delete. -/
def deleteAssignment (db : DBState) (assignmentId : Nat) (username : String)
    (s3DeleteFails : Bool) : Except Err Unit × DBState :=
  match getUserByUsername db username with
  | .error e => (.error e, db)
  | .ok user =>
    if user.roleId ≠ Roles.TUTOR then
      (.error (.forbidden "Only TUTORS can delete assignments"), db)
    else
      match getAssignmentById db assignmentId with
      | none => (.error (.notFound "Assignment not found"), db)
      | some existing =>
        if existing.tutorId ≠ user.id then
          (.error (.forbidden "You can only delete assignments you created"), db)
        else
          if existing.s3Url.isSome && s3DeleteFails then
            (.error .storageError, db)
          else
            (.ok (), deleteAssignmentDAO db assignmentId)

/-- `AssignmentDAO.getTutorAssignments`: WHERE tutor_id = $1 with the
optional publishedAt clause (`SCHEDULED`: published_at > NOW();
`ONGOING`: published_at <= NOW(); any other filter value adds nothing). -/
def getTutorAssignments (db : DBState) (tutorId : Nat)
    (publishedAtFilter : Option String) (now : Int) : List Assignment :=
  db.assignments.filter (fun a =>
    a.tutorId == tutorId &&
    (if publishedAtFilter == some "SCHEDULED" then decide (now < a.publishedAt)
     else if publishedAtFilter == some "ONGOING" then decide (a.publishedAt ≤ now)
     else true))

/-- A row of the student listing (SELECT a.*, sa.status_id). -/
structure StudentAssignmentRow where
  assignment : Assignment
  statusId : Nat
deriving Repr, DecidableEq

/-- The JOIN of tblm_assignments with tblt_student_assignments on
a.id = sa.assignment_id. -/
def studentJoin (db : DBState) : List (Assignment × StudentAssignment) :=
  db.assignments.flatMap (fun a =>
    (db.studentAssignments.filter (fun sa => sa.assignmentId == a.id)).map
      (fun sa => (a, sa)))

/-- `AssignmentDAO.getStudentAssignments`: the join restricted to the
student, with the optional publishedAt clause and the optional status
clause (`OVERDUE`: status_id = PENDING AND deadline < NOW()). -/
def getStudentAssignments (db : DBState) (studentId : Nat)
    (publishedAtFilter statusFilter : Option String) (now : Int) :
    List StudentAssignmentRow :=
  ((studentJoin db).filter (fun p =>
    p.2.studentId == studentId &&
    (if publishedAtFilter == some "SCHEDULED" then decide (now < p.1.publishedAt)
     else if publishedAtFilter == some "ONGOING" then decide (p.1.publishedAt ≤ now)
     else true) &&
    (if statusFilter == some "PENDING" then
       p.2.statusId == SubmissionStatus.PENDING
     else if statusFilter == some "SUBMITTED" then
       p.2.statusId == SubmissionStatus.SUBMITTED
     else if statusFilter == some "OVERDUE" then
       p.2.statusId == SubmissionStatus.PENDING && decide (p.1.deadline < now)
     else true))).map (fun p => ⟨p.1, p.2.statusId⟩)

/-- A row returned by the Deadline Scanner's query (assignment id, title,
deadline, student email). -/
structure NotificationRow where
  assignmentId : Nat
  assignmentTitle : String
  deadline : Int
  studentEmail : String
deriving Repr, DecidableEq

/-- `NotificationService.fetchUpcomingAssignments`: tblt_student_assignments
joined to tblm_assignments and tblm_users, WHERE the deadline lies in
[now + 59 minutes, now + 60 minutes] (SQL BETWEEN, both ends inclusive)
AND status_id = PENDING.  Time is in abstract minutes. -/
def fetchUpcomingAssignments (db : DBState) (now : Int) : List NotificationRow :=
  db.studentAssignments.flatMap (fun sa =>
    if sa.statusId == SubmissionStatus.PENDING then
      (db.assignments.filter (fun a =>
          a.id == sa.assignmentId &&
          decide (now + 59 ≤ a.deadline) && decide (a.deadline ≤ now + 60))).flatMap
        (fun a =>
          (db.users.filter (fun u => u.id == sa.studentId)).map (fun u =>
            ⟨sa.assignmentId, a.title, a.deadline, u.email⟩))
    else [])

/-- `NotificationService.sendNotifications`: the for-loop over the batch,
attempting one `sendMail` per row; a failing send is caught and logged and
the loop continues.  Returns (emails notified successfully, emails whose
delivery failed and was logged), in batch order.  `deliveryFails` says
which recipient addresses fail. -/
def sendNotifications (rows : List NotificationRow)
    (deliveryFails : String → Bool) : List String × List String :=
  rows.foldl
    (fun acc r =>
      if deliveryFails r.studentEmail then (acc.1, acc.2 ++ [r.studentEmail])
      else (acc.1 ++ [r.studentEmail], acc.2))
    ([], [])

/-- One invocation of any state-mutating workflow operation, with its
inputs and injected external faults. -/
inductive Op where
  | create (username title : String) (description : Option String)
      (publishedAt dueDate : Int) (file : FileUpload)
      (studentIds : List Nat) (uuid : String) (s3Fails : Bool)
      (faults : CreateFaults)
  | update (assignmentId : Nat) (username : String) (u : UpdateData)
      (uuid : String) (s3Fails : Bool)
  | delete (assignmentId : Nat) (username : String) (s3DeleteFails : Bool)
  | submit (assignmentId : Nat) (username : String)
      (file : Option FileUpload) (uuid : String) (s3Fails : Bool)
      (faults : SubmitFaults)

/-- The database state after one operation. -/
def applyOp (db : DBState) : Op → DBState
  | .create username title d p dd f sids uuid s3f faults =>
    (createAssignment db username title d p dd f sids uuid s3f faults).db
  | .update aid username u uuid s3f =>
    (updateAssignmentService db aid username u uuid s3f).2
  | .delete aid username s3df => (deleteAssignment db aid username s3df).2
  | .submit aid username f uuid s3f faults =>
    (addSubmission db aid username f uuid s3f faults).db

/-- The database state after a sequence of operations. -/
def applyOps (db : DBState) (ops : List Op) : DBState := ops.foldl applyOp db

/-- Invariant I2 as a decidable state predicate: every SUBMITTED
student-assignment row has a submission row for its pair, and every
submission row has a SUBMITTED student-assignment row for its pair. -/
def submittedIff (db : DBState) : Bool :=
  db.studentAssignments.all (fun sa =>
    sa.statusId != SubmissionStatus.SUBMITTED ||
      db.submissions.any (fun s =>
        s.assignmentId == sa.assignmentId && s.studentId == sa.studentId)) &&
  db.submissions.all (fun s =>
    db.studentAssignments.any (fun sa =>
      sa.assignmentId == s.assignmentId && sa.studentId == s.studentId &&
        sa.statusId == SubmissionStatus.SUBMITTED))

/-! Concrete states used by the witness theorems: a tutor (id 1) and a
student (id 2), with one assignment (id 1) in various stages. -/

/-- Two provisioned users: tutor `tut` (id 1), student `stu` (id 2). -/
def wUsers : List User :=
  [⟨1, "tut", "tutor@example.com", Roles.TUTOR⟩,
   ⟨2, "stu", "student@example.com", Roles.STUDENT⟩]

/-- State with no assignments yet. -/
def wEmpty : DBState := ⟨wUsers, [], [], [], 1, 1⟩

/-- State after the tutor created assignment 1 for student 2 (PENDING). -/
def wAssigned : DBState :=
  ⟨wUsers, [⟨1, 1, "HW1", none, 0, 100, some "url"⟩],
   [⟨1, 2, SubmissionStatus.PENDING⟩], [], 2, 1⟩

/-- State after student 2 submitted for assignment 1. -/
def wSubmitted : DBState :=
  ⟨wUsers, [⟨1, 1, "HW1", none, 0, 100, some "url"⟩],
   [⟨1, 2, SubmissionStatus.SUBMITTED⟩], [⟨1, 1, 2, "surl"⟩], 2, 2⟩

/-- C6: `addSubmission` loads the StudentAssignment row for the assignment
and the requester's resolved identity and fails with Forbidden (status
403) when that row is absent; the call returns before the storage key is
built, so no S3 upload happens, no Submission row is created and the
database is left exactly as it was. -/
theorem unassignedStudentForbiddenBeforeUpload (db : DBState)
    (assignmentId : Nat) (studentUsername : String) (file : Option FileUpload)
    (uuid : String) (s3Fails : Bool) (faults : SubmitFaults) (user : User)
    (hu : getUserByUsername db studentUsername = .ok user)
    (hrole : user.roleId = Roles.STUDENT)
    (habs : getStudentAssignment db assignmentId user.id = none) :
    addSubmission db assignmentId studentUsername file uuid s3Fails faults =
      ⟨.error (.forbidden "Student has not been assigned this assignment"),
       db, []⟩ ∧
    Err.isForbidden
      (Err.forbidden "Student has not been assigned this assignment") = true := by
  refine ⟨?_, rfl⟩
  unfold addSubmission
  rw [hu]
  simp [hrole, habs]

/-- Witness for C6: student 2 was never assigned assignment 7. -/
theorem unassignedStudentForbiddenBeforeUpload_witness :
    getUserByUsername wAssigned "stu" = .ok ⟨2, "stu", "student@example.com", Roles.STUDENT⟩ ∧
    getStudentAssignment wAssigned 7 2 = none ∧
    addSubmission wAssigned 7 "stu" (some ⟨"late.pdf"⟩) "u" false ⟨false, false⟩ =
      ⟨.error (.forbidden "Student has not been assigned this assignment"),
       wAssigned, []⟩ :=
  ⟨by decide, by decide,
   (unassignedStudentForbiddenBeforeUpload wAssigned 7 "stu" (some ⟨"late.pdf"⟩)
     "u" false ⟨false, false⟩ ⟨2, "stu", "student@example.com", Roles.STUDENT⟩
     (by decide) rfl (by decide)).1⟩

/-- C10: `addSubmission` never validates presence of the file: for a
STUDENT requester with an existing StudentAssignment row but no file in
the request, the call raises the JS `TypeError` from reading
`file.originalname` of `undefined` - an error with no `status`
classification (in particular not an InvalidInput one) - before any S3
upload and before any database write, leaving the state unchanged. -/
theorem missingFileRaisesUnclassified (db : DBState) (assignmentId : Nat)
    (studentUsername : String) (uuid : String) (s3Fails : Bool)
    (faults : SubmitFaults) (user : User) (sa : StudentAssignment)
    (hu : getUserByUsername db studentUsername = .ok user)
    (hrole : user.roleId = Roles.STUDENT)
    (hsa : getStudentAssignment db assignmentId user.id = some sa) :
    addSubmission db assignmentId studentUsername none uuid s3Fails faults =
      ⟨.error .typeErrorUndefined, db, []⟩ ∧
    Err.status .typeErrorUndefined = none := by
  refine ⟨?_, rfl⟩
  unfold addSubmission
  rw [hu]
  simp [hrole, hsa]

/-- Witness for C10: assigned student 2 submits without a file. -/
theorem missingFileRaisesUnclassified_witness :
    getUserByUsername wAssigned "stu" = .ok ⟨2, "stu", "student@example.com", Roles.STUDENT⟩ ∧
    getStudentAssignment wAssigned 1 2 = some ⟨1, 2, SubmissionStatus.PENDING⟩ ∧
    addSubmission wAssigned 1 "stu" none "u" false ⟨false, false⟩ =
      ⟨.error .typeErrorUndefined, wAssigned, []⟩ :=
  ⟨by decide, by decide,
   (missingFileRaisesUnclassified wAssigned 1 "stu" "u" false ⟨false, false⟩
     ⟨2, "stu", "student@example.com", Roles.STUDENT⟩
     ⟨1, 2, SubmissionStatus.PENDING⟩ (by decide) rfl (by decide)).1⟩

/-- C4 counterexample: in the source, the S3 `DeleteObjectCommand` inside
`deleteAssignment` is awaited with no surrounding try/catch, so when the
blob deletion fails the error propagates and the Assignment row is NOT
deleted - refuting the claim that the database row is deleted regardless
of the blob deletion outcome.  Concrete input: the owning tutor deletes
assignment 1 (whose `s3Url` is set) while the blob store fails. -/
theorem blobFailureDoesNotBlockDelete_cex :
    ¬ ((deleteAssignment wAssigned 1 "tut" true).1 = .ok () ∧
       getAssignmentById (deleteAssignment wAssigned 1 "tut" true).2 1 = none) := by
  decide

/-- C4 amended: after the role and ownership checks pass, a failure of the
blob-store deletion of the assignment's file propagates (as a storage
error) and blocks deletion of the Assignment row, leaving the database
unchanged; the row is deleted only when the blob deletion succeeds (or no
file is stored). -/
theorem blobFailureBlocksDelete (db : DBState) (assignmentId : Nat)
    (username : String) (user : User) (a : Assignment)
    (hu : getUserByUsername db username = .ok user)
    (hrole : user.roleId = Roles.TUTOR)
    (ha : getAssignmentById db assignmentId = some a)
    (hown : a.tutorId = user.id) :
    (a.s3Url.isSome = true →
      deleteAssignment db assignmentId username true = (.error .storageError, db)) ∧
    deleteAssignment db assignmentId username false =
      (.ok (), deleteAssignmentDAO db assignmentId) ∧
    getAssignmentById (deleteAssignmentDAO db assignmentId) assignmentId = none := by
  refine ⟨?_, ?_, ?_⟩
  · intro hs3
    unfold deleteAssignment
    rw [hu]
    simp [hrole, ha, hown, hs3]
  · unfold deleteAssignment
    rw [hu]
    simp [hrole, ha, hown]
  · unfold getAssignmentById deleteAssignmentDAO
    simp [List.find?_eq_none]

/-- Witness for the amended C4 on the concrete `wAssigned` state. -/
theorem blobFailureBlocksDelete_witness :
    getUserByUsername wAssigned "tut" = .ok ⟨1, "tut", "tutor@example.com", Roles.TUTOR⟩ ∧
    deleteAssignment wAssigned 1 "tut" true = (.error .storageError, wAssigned) :=
  ⟨by decide,
   (blobFailureBlocksDelete wAssigned 1 "tut"
     ⟨1, "tut", "tutor@example.com", Roles.TUTOR⟩ ⟨1, 1, "HW1", none, 0, 100, some "url"⟩
     (by decide) rfl (by decide) rfl).1 (by decide)⟩

/-- C5: `createAssignment`, `updateAssignment` and `deleteAssignment` fail
with Forbidden (status 403) for every requester whose role id is not
TUTOR; `updateAssignment` and `deleteAssignment` additionally fail with
Forbidden for a TUTOR who is not the assignment's creator, while the
creating tutor passes both checks (the delete succeeds when the blob
store cooperates, and the update succeeds when at least one field is
present). -/
theorem roleAndOwnershipGate (db : DBState) (username : String) (user : User)
    (title : String) (description : Option String) (publishedAt dueDate : Int)
    (file : FileUpload) (studentIds : List Nat) (uuid : String)
    (s3Fails : Bool) (cf : CreateFaults) (assignmentId : Nat) (u : UpdateData)
    (s3DeleteFails : Bool)
    (hu : getUserByUsername db username = .ok user) :
    (user.roleId ≠ Roles.TUTOR →
      (createAssignment db username title description publishedAt dueDate file
          studentIds uuid s3Fails cf).result =
        .error (.forbidden "Only TUTORS can create assignments") ∧
      (updateAssignmentService db assignmentId username u uuid s3Fails).1 =
        .error (.forbidden "Only TUTORS can update assignments") ∧
      (deleteAssignment db assignmentId username s3DeleteFails).1 =
        .error (.forbidden "Only TUTORS can delete assignments")) ∧
    (∀ a : Assignment, user.roleId = Roles.TUTOR →
      getAssignmentById db assignmentId = some a → a.tutorId ≠ user.id →
      (updateAssignmentService db assignmentId username u uuid s3Fails).1 =
        .error (.forbidden "You can only update assignments you created") ∧
      (deleteAssignment db assignmentId username s3DeleteFails).1 =
        .error (.forbidden "You can only delete assignments you created")) ∧
    (∀ a : Assignment, user.roleId = Roles.TUTOR →
      getAssignmentById db assignmentId = some a → a.tutorId = user.id →
      (deleteAssignment db assignmentId username false).1 = .ok () ∧
      (u.file = none → (u.toFields none).hasAny = true →
        (updateAssignmentService db assignmentId username u uuid s3Fails).1 =
          .ok ((getAssignmentById db assignmentId).map
            (applyFields (u.toFields none))))) := by
  refine ⟨?_, ?_, ?_⟩
  · intro hrole
    refine ⟨?_, ?_, ?_⟩
    · unfold createAssignment
      rw [hu]
      simp [hrole]
    · unfold updateAssignmentService
      rw [hu]
      simp [hrole]
    · unfold deleteAssignment
      rw [hu]
      simp [hrole]
  · intro a hrole ha hown
    refine ⟨?_, ?_⟩
    · unfold updateAssignmentService
      rw [hu]
      simp [hrole, ha, hown]
    · unfold deleteAssignment
      rw [hu]
      simp [hrole, ha, hown]
  · intro a hrole ha hown
    refine ⟨?_, ?_⟩
    · unfold deleteAssignment
      rw [hu]
      simp [hrole, ha, hown]
    · intro hfile hfields
      unfold updateAssignmentService
      rw [hu]
      simp [hrole, ha, hown, hfile]
      unfold updateAssignmentDAO
      rw [hfields]
      simp [getAssignmentById]
      exact ⟨a, ha, rfl⟩

/-- Witness for C5: the student is refused on create, a second tutor is
refused on delete, and the creating tutor's delete succeeds. -/
theorem roleAndOwnershipGate_witness :
    getUserByUsername wAssigned "stu" = .ok ⟨2, "stu", "student@example.com", Roles.STUDENT⟩ ∧
    (createAssignment wAssigned "stu" "X" none 0 1 ⟨"f"⟩ [] "u" false
        ⟨false, none⟩).result =
      .error (.forbidden "Only TUTORS can create assignments") ∧
    (deleteAssignment wAssigned 1 "tut" false).1 = .ok () :=
  ⟨by decide,
   ((roleAndOwnershipGate wAssigned "stu"
       ⟨2, "stu", "student@example.com", Roles.STUDENT⟩ "X" none 0 1 ⟨"f"⟩ []
       "u" false ⟨false, none⟩ 1 ⟨none, none, none, none, none⟩ false
       (by decide)).1 (by decide)).1,
   (((roleAndOwnershipGate wAssigned "tut"
       ⟨1, "tut", "tutor@example.com", Roles.TUTOR⟩ "X" none 0 1 ⟨"f"⟩ []
       "u" false ⟨false, none⟩ 1 ⟨none, none, none, none, none⟩ false
       (by decide)).2.2 ⟨1, 1, "HW1", none, 0, 100, some "url"⟩ rfl (by decide)
       rfl).1)⟩

/-- Number of Submission rows stored for one (assignment, student) pair. -/
def countSubmissionsFor (db : DBState) (assignmentId studentId : Nat) : Nat :=
  db.submissions.countP
    (fun s => s.assignmentId == assignmentId && s.studentId == studentId)

/-- C3: when a Submission row already exists for the (assignment, student)
pair - exactly one, as the unique constraint keeps it - a second
`addSubmission` call for that pair fails with the unique-constraint
violation (the spec taxonomy's Conflict), the transaction is rolled back,
and afterwards exactly one Submission row exists for the pair: the
existing submission is never overwritten. -/
theorem duplicateSubmissionConflict (db : DBState) (assignmentId : Nat)
    (studentUsername : String) (f : FileUpload) (uuid : String)
    (faults : SubmitFaults) (user : User) (sa : StudentAssignment)
    (hu : getUserByUsername db studentUsername = .ok user)
    (hrole : user.roleId = Roles.STUDENT)
    (hsa : getStudentAssignment db assignmentId user.id = some sa)
    (hins : faults.insertFails = false)
    (hcount : countSubmissionsFor db assignmentId user.id = 1) :
    (addSubmission db assignmentId studentUsername (some f) uuid false
        faults).result = .error .uniqueViolation ∧
    (addSubmission db assignmentId studentUsername (some f) uuid false
        faults).db = db ∧
    countSubmissionsFor
      (addSubmission db assignmentId studentUsername (some f) uuid false
        faults).db assignmentId user.id = 1 := by
  have hdup : db.submissions.any
      (fun s => s.assignmentId == assignmentId && s.studentId == user.id) = true := by
    have hpos : 0 < countSubmissionsFor db assignmentId user.id := by
      rw [hcount]; exact Nat.one_pos
    rw [countSubmissionsFor, List.countP_pos_iff] at hpos
    rw [List.any_eq_true]
    obtain ⟨s, hs, hps⟩ := hpos
    exact ⟨s, hs, hps⟩
  have hcall : addSubmission db assignmentId studentUsername (some f) uuid false
      faults =
      ⟨.error .uniqueViolation, db, [uuid ++ "-" ++ f.originalname]⟩ := by
    unfold addSubmission
    rw [hu]
    simp only [hrole, hsa]
    simp [submitTx, saveSubmission, hins, hdup]
  rw [hcall]
  exact ⟨rfl, rfl, hcount⟩

/-- Witness for C3: student 2 submits again for assignment 1 after a
submission already exists. -/
theorem duplicateSubmissionConflict_witness :
    countSubmissionsFor wSubmitted 1 2 = 1 ∧
    (addSubmission wSubmitted 1 "stu" (some ⟨"again.pdf"⟩) "u" false
        ⟨false, false⟩).result = .error .uniqueViolation ∧
    countSubmissionsFor
      (addSubmission wSubmitted 1 "stu" (some ⟨"again.pdf"⟩) "u" false
        ⟨false, false⟩).db 1 2 = 1 := by
  have h := duplicateSubmissionConflict wSubmitted 1 "stu" ⟨"again.pdf"⟩ "u"
    ⟨false, false⟩ ⟨2, "stu", "student@example.com", Roles.STUDENT⟩
    ⟨1, 2, SubmissionStatus.SUBMITTED⟩ (by decide) rfl (by decide) rfl (by decide)
  exact ⟨by decide, h.1, h.2.2⟩

/-- C2: a failure of any relational statement inside the transactional
unit of `createAssignment` (the assignment INSERT, or the StudentAssignment
fan-out when students are supplied) or of `addSubmission` (the submission
INSERT - including its unique-constraint violation - or the status UPDATE)
makes the whole call return an error with the database exactly as it was
before the call; in particular a fan-out failure partway (after any number
of tentative rows) leaves zero StudentAssignment rows for the new
assignment id. -/
theorem transactionalRollback :
    (∀ (db : DBState) (username title : String) (description : Option String)
        (publishedAt dueDate : Int) (file : FileUpload)
        (studentIds : List Nat) (uuid : String) (s3Fails : Bool)
        (cf : CreateFaults),
      cf.insertAssignmentFails = true ∨
        (cf.fanoutFailAfter ≠ none ∧ studentIds ≠ []) →
      (createAssignment db username title description publishedAt dueDate file
          studentIds uuid s3Fails cf).db = db ∧
      (∃ e, (createAssignment db username title description publishedAt dueDate
          file studentIds uuid s3Fails cf).result = .error e) ∧
      ((∀ sa ∈ db.studentAssignments, sa.assignmentId ≠ db.nextAssignmentId) →
        (createAssignment db username title description publishedAt dueDate file
            studentIds uuid s3Fails cf).db.studentAssignments.countP
          (fun sa => sa.assignmentId == db.nextAssignmentId) = 0)) ∧
    (∀ (db : DBState) (assignmentId : Nat) (studentUsername : String)
        (file : Option FileUpload) (uuid : String) (s3Fails : Bool)
        (sf : SubmitFaults) (user : User),
      getUserByUsername db studentUsername = .ok user →
      sf.insertFails = true ∨ sf.updateFails = true ∨
        db.submissions.any (fun s =>
          s.assignmentId == assignmentId && s.studentId == user.id) = true →
      (addSubmission db assignmentId studentUsername file uuid s3Fails sf).db =
        db ∧
      ∃ e, (addSubmission db assignmentId studentUsername file uuid s3Fails
          sf).result = .error e) := by
  constructor
  · intro db username title description publishedAt dueDate file studentIds
      uuid s3Fails cf hf
    have htx : ∀ tid fileUrl, ∃ e,
        createTx db tid title description publishedAt dueDate fileUrl
          studentIds cf = .error e := by
      intro tid fileUrl
      unfold createTx
      rcases h1 : cf.insertAssignmentFails with _ | _
      · rcases hf with hA | ⟨h2, h3⟩
        · rw [hA] at h1; cases h1
        · obtain ⟨k, hk⟩ := Option.ne_none_iff_exists'.mp h2
          have hlen : 0 < studentIds.length := List.length_pos.mpr h3
          simp [h1, hk, hlen, saveAssignment]
      · simp [h1]
    have hmain : (createAssignment db username title description publishedAt
        dueDate file studentIds uuid s3Fails cf).db = db ∧
        ∃ e, (createAssignment db username title description publishedAt
          dueDate file studentIds uuid s3Fails cf).result = .error e := by
      unfold createAssignment
      split
      · exact ⟨rfl, _, rfl⟩
      · split
        · exact ⟨rfl, _, rfl⟩
        · split
          · exact ⟨rfl, _, rfl⟩
          · rename_i user heq hrole hs3
            obtain ⟨e, he⟩ := htx user.id
              (s3UrlOf (uuid ++ "-" ++ file.originalname))
            rw [he]
            exact ⟨rfl, e, rfl⟩
    refine ⟨hmain.1, hmain.2, ?_⟩
    intro hfresh
    rw [hmain.1]
    rw [List.countP_eq_zero]
    intro sa hsa
    have := hfresh sa hsa
    simp [this]
  · intro db assignmentId studentUsername file uuid s3Fails sf user hu hf
    have htx : ∀ fileUrl, ∃ e,
        submitTx db assignmentId user.id fileUrl sf = .error e := by
      intro fileUrl
      unfold submitTx
      rcases h1 : sf.insertFails with _ | _
      · rcases hf with hA | h2 | h3
        · rw [hA] at h1; cases h1
        · unfold saveSubmission
          rcases hd : db.submissions.any (fun s =>
              s.assignmentId == assignmentId && s.studentId == user.id) with _ | _
          · simp [h1, hd, h2]
          · simp [h1, hd]
        · unfold saveSubmission
          simp [h1, h3]
      · simp [h1]
    unfold addSubmission
    split
    · exact ⟨rfl, _, rfl⟩
    · rename_i user' heq
      have huser : user = user' := by
        rw [hu] at heq
        exact Except.ok.inj heq
      subst huser
      split
      · exact ⟨rfl, _, rfl⟩
      · split
        · exact ⟨rfl, _, rfl⟩
        · split
          · exact ⟨rfl, _, rfl⟩
          · split
            · exact ⟨rfl, _, rfl⟩
            · rename_i f hs3
              obtain ⟨e, he⟩ := htx
                (s3UrlOf (uuid ++ "-" ++ f.originalname))
              rw [he]
              exact ⟨rfl, e, rfl⟩

/-- Witness for C2: a fan-out failure during creation leaves the state
untouched and zero rows for the new assignment id, and an injected
status-update failure during submission rolls the submission back. -/
theorem transactionalRollback_witness :
    (createAssignment wEmpty "tut" "HW1" none 0 100 ⟨"hw.pdf"⟩ [2] "u" false
        ⟨false, some 1⟩).db = wEmpty ∧
    (createAssignment wEmpty "tut" "HW1" none 0 100 ⟨"hw.pdf"⟩ [2] "u" false
        ⟨false, some 1⟩).db.studentAssignments.countP
      (fun sa => sa.assignmentId == wEmpty.nextAssignmentId) = 0 ∧
    (addSubmission wAssigned 1 "stu" (some ⟨"a.pdf"⟩) "u" false
        ⟨false, true⟩).db = wAssigned := by
  have h1 := transactionalRollback.1 wEmpty "tut" "HW1" none 0 100 ⟨"hw.pdf"⟩
    [2] "u" false ⟨false, some 1⟩ (Or.inr ⟨by decide, by decide⟩)
  have h2 := transactionalRollback.2 wAssigned 1 "stu" (some ⟨"a.pdf"⟩) "u"
    false ⟨false, true⟩ ⟨2, "stu", "student@example.com", Roles.STUDENT⟩
    (by decide) (Or.inr (Or.inl rfl))
  exact ⟨h1.1, h1.2.2 (by decide), h2.1⟩

/-- C7: `updateAssignment` applies exactly the fields present in the
request among title, description, dueDate, publishedAt and fileUrl.
After the role/existence/ownership checks pass (and no replacement file is
uploaded, so `fileUrl` is present exactly when the request carried one):
the service call is the DAO update on the request's field set; when no
field is present the call fails with the "No fields provided to update"
error (the InvalidInput condition) and the state is untouched; when some
field is present the matched row becomes `applyFields`, rows with a
different id are untouched, and `applyFields` leaves every absent field at
its previous value (never null) while writing exactly the present ones. -/
theorem partialUpdateAppliesPresentFields (db : DBState) (assignmentId : Nat)
    (username : String) (u : UpdateData) (uuid : String) (user : User)
    (a : Assignment)
    (hu : getUserByUsername db username = .ok user)
    (hrole : user.roleId = Roles.TUTOR)
    (ha : getAssignmentById db assignmentId = some a)
    (hown : a.tutorId = user.id)
    (hfile : u.file = none) :
    updateAssignmentService db assignmentId username u uuid false =
      updateAssignmentDAO db assignmentId (u.toFields none) ∧
    ((u.toFields none).hasAny = false →
      updateAssignmentDAO db assignmentId (u.toFields none) =
        (.error .noFieldsToUpdate, db)) ∧
    (∀ f : UpdateFields, f.hasAny = true →
      (updateAssignmentDAO db assignmentId f).1 =
        .ok (some (applyFields f a)) ∧
      (updateAssignmentDAO db assignmentId f).2.assignments =
        db.assignments.map (fun x =>
          if x.id == assignmentId then applyFields f x else x) ∧
      ∀ x ∈ db.assignments, x.id ≠ assignmentId →
        x ∈ (updateAssignmentDAO db assignmentId f).2.assignments) ∧
    (∀ f : UpdateFields, ∀ b : Assignment,
      (f.title = none → (applyFields f b).title = b.title) ∧
      (∀ t, f.title = some t → (applyFields f b).title = t) ∧
      (f.description = none → (applyFields f b).description = b.description) ∧
      (∀ d, f.description = some d → (applyFields f b).description = d) ∧
      (f.dueDate = none → (applyFields f b).deadline = b.deadline) ∧
      (∀ v, f.dueDate = some v → (applyFields f b).deadline = v) ∧
      (f.publishedAt = none → (applyFields f b).publishedAt = b.publishedAt) ∧
      (∀ v, f.publishedAt = some v → (applyFields f b).publishedAt = v) ∧
      (f.fileUrl = none → (applyFields f b).s3Url = b.s3Url) ∧
      (∀ v, f.fileUrl = some v → (applyFields f b).s3Url = some v) ∧
      (applyFields f b).id = b.id ∧ (applyFields f b).tutorId = b.tutorId) := by
  refine ⟨?_, ?_, ?_, ?_⟩
  · unfold updateAssignmentService
    rw [hu]
    simp [hrole, ha, hown, hfile]
  · intro hnone
    unfold updateAssignmentDAO
    rw [hnone]
    simp
  · intro f hany
    have hred : updateAssignmentDAO db assignmentId f =
        (.ok ((db.assignments.find? (fun x => x.id == assignmentId)).map
          (applyFields f)),
         { db with assignments := db.assignments.map (fun x =>
            if x.id == assignmentId then applyFields f x else x) }) := by
      unfold updateAssignmentDAO
      rw [hany]
      simp
    rw [hred]
    have ha' : db.assignments.find? (fun x => x.id == assignmentId) = some a := ha
    refine ⟨?_, rfl, ?_⟩
    · rw [ha']
      rfl
    · intro x hx hne
      rw [List.mem_map]
      exact ⟨x, hx, by simp [hne]⟩
  · intro f b
    refine ⟨?_, ?_, ?_, ?_, ?_, ?_, ?_, ?_, ?_, ?_, rfl, rfl⟩ <;>
      first
        | (intro h; simp [applyFields, h])
        | (intro v h; simp [applyFields, h])

/-- Witness for C7: updating only the title of assignment 1 keeps every
other field, and an all-absent request fails without modifying anything. -/
theorem partialUpdateAppliesPresentFields_witness :
    updateAssignmentService wAssigned 1 "tut"
        ⟨some "HW1b", none, none, none, none⟩ "u" false =
      (.ok (some ⟨1, 1, "HW1b", none, 0, 100, some "url"⟩),
       ⟨wUsers, [⟨1, 1, "HW1b", none, 0, 100, some "url"⟩],
        [⟨1, 2, SubmissionStatus.PENDING⟩], [], 2, 1⟩) ∧
    updateAssignmentService wAssigned 1 "tut"
        ⟨none, none, none, none, none⟩ "u" false =
      (.error .noFieldsToUpdate, wAssigned) := by
  have h1 := partialUpdateAppliesPresentFields wAssigned 1 "tut"
    ⟨some "HW1b", none, none, none, none⟩ "u"
    ⟨1, "tut", "tutor@example.com", Roles.TUTOR⟩
    ⟨1, 1, "HW1", none, 0, 100, some "url"⟩
    (by decide) rfl (by decide) rfl rfl
  have h2 := partialUpdateAppliesPresentFields wAssigned 1 "tut"
    ⟨none, none, none, none, none⟩ "u"
    ⟨1, "tut", "tutor@example.com", Roles.TUTOR⟩
    ⟨1, 1, "HW1", none, 0, 100, some "url"⟩
    (by decide) rfl (by decide) rfl rfl
  constructor
  · rw [h1.1]
    decide
  · rw [h2.1]
    exact h2.2.1 rfl

/-- C8: `getAssignments` filter semantics, with `now` the query-time
clock.  For a tutor, the SCHEDULED filter returns exactly the tutor's
assignments whose publishedAt is strictly in the future and the ONGOING
filter exactly those whose publishedAt is at or before now.  For a
student, the OVERDUE status filter returns exactly the joined rows whose
StudentAssignment status is PENDING and whose assignment deadline is
before now - a condition computed from `now` at query time, not stored. -/
theorem listingFilterSemantics (db : DBState) (tutorId studentId : Nat)
    (now : Int) :
    (∀ a : Assignment,
      (a ∈ getTutorAssignments db tutorId (some "SCHEDULED") now ↔
        a ∈ db.assignments ∧ a.tutorId = tutorId ∧ now < a.publishedAt) ∧
      (a ∈ getTutorAssignments db tutorId (some "ONGOING") now ↔
        a ∈ db.assignments ∧ a.tutorId = tutorId ∧ a.publishedAt ≤ now)) ∧
    (∀ r : StudentAssignmentRow,
      r ∈ getStudentAssignments db studentId none (some "OVERDUE") now ↔
        ∃ a ∈ db.assignments, ∃ sa ∈ db.studentAssignments,
          sa.assignmentId = a.id ∧ sa.studentId = studentId ∧
          sa.statusId = SubmissionStatus.PENDING ∧ a.deadline < now ∧
          r = ⟨a, sa.statusId⟩) := by
  constructor
  · intro a
    constructor
    · unfold getTutorAssignments
      rw [List.mem_filter]
      simp [and_assoc]
    · unfold getTutorAssignments
      rw [List.mem_filter]
      simp [and_assoc]
  · intro r
    unfold getStudentAssignments studentJoin
    rw [List.mem_map]
    constructor
    · rintro ⟨p, hp, hr⟩
      rw [List.mem_filter] at hp
      obtain ⟨hmem, hcond⟩ := hp
      rw [List.mem_flatMap] at hmem
      obtain ⟨a, hamem, hpa⟩ := hmem
      rw [List.mem_map] at hpa
      obtain ⟨sa, hsamem, hpsa⟩ := hpa
      rw [List.mem_filter] at hsamem
      subst hpsa
      simp at hcond hsamem
      exact ⟨a, hamem, sa, hsamem.1, hsamem.2, hcond.1, hcond.2.1,
        hcond.2.2, by rw [← hr]⟩
    · rintro ⟨a, hamem, sa, hsamem, hsaid, hstud, hstat, hdl, hr⟩
      refine ⟨(a, sa), ?_, ?_⟩
      · rw [List.mem_filter]
        constructor
        · rw [List.mem_flatMap]
          refine ⟨a, hamem, ?_⟩
          rw [List.mem_map]
          exact ⟨sa, by rw [List.mem_filter]; simp [hsamem, hsaid], rfl⟩
        · simp [hstud, hstat, hdl]
      · exact hr.symm

/-- In a list whose keys are pairwise distinct, a filter whose predicate
forces one key keeps at most one element: its length is 1 exactly when
some element satisfies the predicate. -/
theorem length_filter_of_key {α : Type} (l : List α) (key : α → Nat) (k : Nat)
    (q : α → Bool) (hkey : ∀ x, q x = true → key x = k)
    (hnd : (l.map key).Nodup) :
    (l.filter q).length = if l.any q then 1 else 0 := by
  induction l with
  | nil => rfl
  | cons x xs ih =>
    rw [List.map_cons, List.nodup_cons] at hnd
    obtain ⟨hx, hxs⟩ := hnd
    rcases hqx : q x with _ | _
    · rw [List.filter_cons_of_neg (by simp [hqx]), List.any_cons, hqx,
        Bool.false_or]
      exact ih hxs
    · rw [List.filter_cons_of_pos hqx, List.any_cons, hqx, Bool.true_or]
      have hnil : xs.filter q = [] := by
        rw [List.filter_eq_nil_iff]
        intro y hy hqy
        have hky : key y = key x := (hkey y hqy).trans (hkey x hqx).symm
        have hmem := List.mem_map_of_mem key hy
        rw [hky] at hmem
        exact hx hmem
      rw [hnil]
      rfl

/-- Unfolding of the per-recipient loop of `sendNotifications` for an
arbitrary accumulator. -/
theorem sendNotificationsFold (rows : List NotificationRow)
    (df : String → Bool) (acc : List String × List String) :
    rows.foldl
      (fun acc r =>
        if df r.studentEmail then (acc.1, acc.2 ++ [r.studentEmail])
        else (acc.1 ++ [r.studentEmail], acc.2)) acc =
      (acc.1 ++ (rows.filter (fun r => !df r.studentEmail)).map
        (fun r => r.studentEmail),
       acc.2 ++ (rows.filter (fun r => df r.studentEmail)).map
        (fun r => r.studentEmail)) := by
  induction rows generalizing acc with
  | nil => simp
  | cons r rs ih =>
    rcases h : df r.studentEmail with _ | _
    · simp [List.foldl_cons, h, ih]
    · simp [List.foldl_cons, h, ih]

/-- Length of a flatMap whose inner list is a map over a fixed list. -/
theorem length_flatMap_const {A B C : Type} (l : List A) (g : List C)
    (f : A → C → B) :
    (l.flatMap (fun a => g.map (f a))).length = l.length * g.length := by
  induction l with
  | nil => simp
  | cons x xs ih =>
    simp [List.flatMap_cons, ih, Nat.succ_mul, Nat.add_comm]

/-- C9: on a scanner tick at time `now`, the query returns exactly the
PENDING StudentAssignment rows whose assignment deadline lies in the
inclusive window [now + 59, now + 60] minutes (joined to the assignment
title and the student email), one notification attempt per such row when
assignment and user ids are unique; and the send loop catches a failing
delivery per-recipient, so every row of the batch is attempted - the
successes and the logged failures together exhaust the batch regardless of
which addresses fail. -/
theorem deadlineScannerBatch (db : DBState) (now : Int)
    (deliveryFails : String → Bool)
    (hA : (db.assignments.map Assignment.id).Nodup)
    (hU : (db.users.map User.id).Nodup) :
    (∀ r : NotificationRow, r ∈ fetchUpcomingAssignments db now ↔
      ∃ sa ∈ db.studentAssignments, ∃ a ∈ db.assignments, ∃ u ∈ db.users,
        sa.statusId = SubmissionStatus.PENDING ∧ a.id = sa.assignmentId ∧
        u.id = sa.studentId ∧ now + 59 ≤ a.deadline ∧ a.deadline ≤ now + 60 ∧
        r = ⟨sa.assignmentId, a.title, a.deadline, u.email⟩) ∧
    (fetchUpcomingAssignments db now).length =
      db.studentAssignments.countP (fun sa =>
        sa.statusId == SubmissionStatus.PENDING &&
        db.assignments.any (fun a => a.id == sa.assignmentId &&
          decide (now + 59 ≤ a.deadline) && decide (a.deadline ≤ now + 60)) &&
        db.users.any (fun u => u.id == sa.studentId)) ∧
    (∀ rows : List NotificationRow,
      (sendNotifications rows deliveryFails).1 =
        (rows.filter (fun r => !deliveryFails r.studentEmail)).map
          (fun r => r.studentEmail) ∧
      (sendNotifications rows deliveryFails).2 =
        (rows.filter (fun r => deliveryFails r.studentEmail)).map
          (fun r => r.studentEmail) ∧
      (sendNotifications rows deliveryFails).1.length +
        (sendNotifications rows deliveryFails).2.length = rows.length) := by
  refine ⟨?_, ?_, ?_⟩
  · intro r
    unfold fetchUpcomingAssignments
    rw [List.mem_flatMap]
    constructor
    · rintro ⟨sa, hsa, hbody⟩
      rcases hp : sa.statusId == SubmissionStatus.PENDING with _ | _
      · rw [hp] at hbody
        simp at hbody
      · rw [hp] at hbody
        simp only [if_true] at hbody
        rw [List.mem_flatMap] at hbody
        obtain ⟨a, haf, hmap⟩ := hbody
        rw [List.mem_map] at hmap
        obtain ⟨u, huf, hru⟩ := hmap
        rw [List.mem_filter] at haf huf
        simp only [Bool.and_eq_true, beq_iff_eq, decide_eq_true_eq] at haf huf hp
        exact ⟨sa, hsa, a, haf.1, u, huf.1, hp, haf.2.1.1, huf.2,
          haf.2.1.2, haf.2.2, hru.symm⟩
    · rintro ⟨sa, hsa, a, ha, u, hu, hp, haid, huid, h59, h60, hr⟩
      refine ⟨sa, hsa, ?_⟩
      rw [if_pos (by simp [hp])]
      rw [List.mem_flatMap]
      refine ⟨a, ?_, ?_⟩
      · rw [List.mem_filter]
        simp [ha, haid, h59, h60]
      · rw [List.mem_map]
        refine ⟨u, ?_, hr.symm⟩
        rw [List.mem_filter]
        simp [hu, huid]
  · unfold fetchUpcomingAssignments
    generalize db.studentAssignments = sas
    induction sas with
    | nil => rfl
    | cons sa rest ih =>
      rw [List.flatMap_cons, List.length_append, List.countP_cons, ih]
      have hone : (if sa.statusId == SubmissionStatus.PENDING then
          (db.assignments.filter (fun a => a.id == sa.assignmentId &&
            decide (now + 59 ≤ a.deadline) &&
            decide (a.deadline ≤ now + 60))).flatMap
            (fun a => (db.users.filter (fun u => u.id == sa.studentId)).map
              (fun u => (⟨sa.assignmentId, a.title, a.deadline, u.email⟩ :
                NotificationRow)))
          else []).length =
          (if sa.statusId == SubmissionStatus.PENDING &&
            db.assignments.any (fun a => a.id == sa.assignmentId &&
              decide (now + 59 ≤ a.deadline) &&
              decide (a.deadline ≤ now + 60)) &&
            db.users.any (fun u => u.id == sa.studentId) then 1 else 0) := by
        rcases hp : sa.statusId == SubmissionStatus.PENDING with _ | _
        · simp [hp]
        · simp only [hp, if_true, Bool.true_and]
          have hU' : (db.users.filter
              (fun u => u.id == sa.studentId)).length =
              if db.users.any (fun u => u.id == sa.studentId) then 1 else 0 :=
            length_filter_of_key db.users User.id sa.studentId _
              (fun u h => by simpa using h) hU
          have hA' : (db.assignments.filter (fun a =>
              a.id == sa.assignmentId && decide (now + 59 ≤ a.deadline) &&
              decide (a.deadline ≤ now + 60))).length =
              if db.assignments.any (fun a =>
                a.id == sa.assignmentId && decide (now + 59 ≤ a.deadline) &&
                decide (a.deadline ≤ now + 60)) then 1 else 0 :=
            length_filter_of_key db.assignments Assignment.id sa.assignmentId _
              (fun a h => by
                simp only [Bool.and_eq_true, beq_iff_eq] at h
                exact h.1.1) hA
          rw [length_flatMap_const, hA', hU']
          rcases ha2 : db.assignments.any (fun a =>
              a.id == sa.assignmentId && decide (now + 59 ≤ a.deadline) &&
              decide (a.deadline ≤ now + 60)) with _ | _ <;>
            rcases hu2 : db.users.any (fun u => u.id == sa.studentId)
              with _ | _ <;>
            simp [ha2, hu2]
      rw [hone]
      rcases hc : (sa.statusId == SubmissionStatus.PENDING &&
          db.assignments.any (fun a => a.id == sa.assignmentId &&
            decide (now + 59 ≤ a.deadline) &&
            decide (a.deadline ≤ now + 60)) &&
          db.users.any (fun u => u.id == sa.studentId)) with _ | _ <;>
        simp [hc, Nat.add_comm]
  · intro rows
    have hfold := sendNotificationsFold rows deliveryFails ([], [])
    unfold sendNotifications
    rw [hfold]
    refine ⟨rfl, rfl, ?_⟩
    simp only [List.nil_append]
    rw [List.length_map, List.length_map,
      ← List.countP_eq_length_filter, ← List.countP_eq_length_filter]
    have hsplit := List.length_eq_countP_add_countP
      (fun r : NotificationRow => deliveryFails r.studentEmail) rows
    have hnot : rows.countP (fun r => !deliveryFails r.studentEmail) =
        rows.countP (fun r => decide ¬(deliveryFails r.studentEmail = true)) := by
      apply List.countP_congr
      intro r _
      simp
    rw [hnot]
    omega

/-- Witness for C9 on a concrete state: one PENDING row with deadline 100
falls in the tick window at now = 40, and the single failing recipient is
logged while the batch length is preserved. -/
theorem deadlineScannerBatch_witness :
    ((wAssigned.assignments.map Assignment.id).Nodup ∧
      (wAssigned.users.map User.id).Nodup) ∧
    (fetchUpcomingAssignments wAssigned 40).length =
      wAssigned.studentAssignments.countP (fun sa =>
        sa.statusId == SubmissionStatus.PENDING &&
        wAssigned.assignments.any (fun a => a.id == sa.assignmentId &&
          decide ((40 : Int) + 59 ≤ a.deadline) &&
          decide (a.deadline ≤ (40 : Int) + 60)) &&
        wAssigned.users.any (fun u => u.id == sa.studentId)) ∧
    (sendNotifications (fetchUpcomingAssignments wAssigned 40)
        (fun e => e == "student@example.com")).1.length +
      (sendNotifications (fetchUpcomingAssignments wAssigned 40)
        (fun e => e == "student@example.com")).2.length =
      (fetchUpcomingAssignments wAssigned 40).length := by
  have h := deadlineScannerBatch wAssigned 40
    (fun e => e == "student@example.com") (by decide) (by decide)
  exact ⟨⟨by decide, by decide⟩, h.2.1,
    (h.2.2 (fetchUpcomingAssignments wAssigned 40)).2.2⟩

/-- The Boolean invariant `submittedIff` says exactly: for every
(assignment, student) pair, a SUBMITTED student-assignment row exists iff
a submission row exists. -/
theorem submittedIff_iff (db : DBState) :
    submittedIff db = true ↔
      ∀ aid sid : Nat,
        ((∃ sa ∈ db.studentAssignments, sa.assignmentId = aid ∧
            sa.studentId = sid ∧ sa.statusId = SubmissionStatus.SUBMITTED) ↔
          (∃ s ∈ db.submissions, s.assignmentId = aid ∧ s.studentId = sid)) := by
  unfold submittedIff
  simp only [Bool.and_eq_true, List.all_eq_true, Bool.or_eq_true, bne_iff_ne,
    ne_eq, List.any_eq_true, beq_iff_eq]
  constructor
  · rintro ⟨h1, h2⟩ aid sid
    constructor
    · rintro ⟨sa, hsa, ha, hs, hst⟩
      rcases h1 sa hsa with hne | ⟨s, hsm, hsa2, hss2⟩
      · exact absurd hst hne
      · exact ⟨s, hsm, ha ▸ hsa2, hs ▸ hss2⟩
    · rintro ⟨s, hsm, ha, hs⟩
      obtain ⟨sa, hsa, ⟨h1', h2'⟩, h3'⟩ := h2 s hsm
      exact ⟨sa, hsa, h1'.trans ha, h2'.trans hs, h3'⟩
  · intro h
    constructor
    · intro sa hsa
      by_cases hst : sa.statusId = SubmissionStatus.SUBMITTED
      · obtain ⟨s, hsm, h1', h2'⟩ :=
          (h sa.assignmentId sa.studentId).mp ⟨sa, hsa, rfl, rfl, hst⟩
        exact Or.inr ⟨s, hsm, h1', h2'⟩
      · exact Or.inl hst
    · intro s hsm
      obtain ⟨sa, hsa, h1', h2', h3'⟩ :=
        (h s.assignmentId s.studentId).mpr ⟨s, hsm, rfl, rfl⟩
      exact ⟨sa, hsa, ⟨h1', h2'⟩, h3'⟩

/-- The invariant only reads the student-assignment and submission tables. -/
theorem submittedIff_ext (db db' : DBState)
    (hsa : db'.studentAssignments = db.studentAssignments)
    (hsub : db'.submissions = db.submissions) :
    submittedIff db' = submittedIff db := by
  unfold submittedIff
  rw [hsa, hsub]

/-- One fan-out VALUES row (a PENDING insert, or a no-op on conflict)
preserves the invariant. -/
theorem submittedIff_insertRow (db : DBState) (aid0 sid0 : Nat)
    (h : submittedIff db = true) :
    submittedIff (insertStudentAssignmentRow db aid0 sid0) = true := by
  unfold insertStudentAssignmentRow
  split
  · exact h
  · rw [submittedIff_iff] at h ⊢
    intro aid sid
    constructor
    · rintro ⟨sa, hsa, ha, hs, hst⟩
      simp only [List.mem_append, List.mem_singleton] at hsa
      rcases hsa with hsa | rfl
      · exact (h aid sid).mp ⟨sa, hsa, ha, hs, hst⟩
      · simp [SubmissionStatus.PENDING, SubmissionStatus.SUBMITTED] at hst
    · intro hsub
      obtain ⟨sa, hsa, ha, hs, hst⟩ := (h aid sid).mpr hsub
      exact ⟨sa, by simp [hsa], ha, hs, hst⟩

/-- The whole idempotent fan-out INSERT preserves the invariant. -/
theorem submittedIff_saveStudentAssignments (db : DBState) (aid : Nat)
    (sids : List Nat) (h : submittedIff db = true) :
    submittedIff (saveStudentAssignments db aid sids) = true := by
  induction sids generalizing db with
  | nil => exact h
  | cons sid rest ih =>
    show submittedIff
      (saveStudentAssignments (insertStudentAssignmentRow db aid sid) aid
        rest) = true
    exact ih _ (submittedIff_insertRow db aid sid h)

/-- The cascading delete of one assignment preserves the invariant. -/
theorem submittedIff_deleteDAO (db : DBState) (aid : Nat)
    (h : submittedIff db = true) :
    submittedIff (deleteAssignmentDAO db aid) = true := by
  rw [submittedIff_iff] at h ⊢
  simp only [deleteAssignmentDAO]
  intro a s
  constructor
  · rintro ⟨sa, hsa, ha, hs, hst⟩
    rw [List.mem_filter] at hsa
    obtain ⟨hsa, hne⟩ := hsa
    obtain ⟨sub, hsub, ha2, hs2⟩ := (h a s).mp ⟨sa, hsa, ha, hs, hst⟩
    refine ⟨sub, ?_, ha2, hs2⟩
    rw [List.mem_filter]
    refine ⟨hsub, ?_⟩
    simp only [decide_eq_true_eq] at hne ⊢
    rw [ha2, ← ha]
    exact hne
  · rintro ⟨sub, hsub, ha, hs⟩
    rw [List.mem_filter] at hsub
    obtain ⟨hsub, hne⟩ := hsub
    obtain ⟨sa, hsa, ha2, hs2, hst⟩ := (h a s).mpr ⟨sub, hsub, ha, hs⟩
    refine ⟨sa, ?_, ha2, hs2, hst⟩
    rw [List.mem_filter]
    refine ⟨hsa, ?_⟩
    simp only [decide_eq_true_eq] at hne ⊢
    rw [ha2, ← ha]
    exact hne

/-- The committed submission transaction - append the new Submission row
and set the pair's StudentAssignment rows to SUBMITTED - preserves the
invariant, given that the pair has a StudentAssignment row (checked by
`addSubmission` before the transaction). -/
theorem submittedIff_submitCommit (db : DBState) (aid sid : Nat)
    (fileUrl : String) (sa0 : StudentAssignment)
    (hsa0 : sa0 ∈ db.studentAssignments) (ha0 : sa0.assignmentId = aid)
    (hs0 : sa0.studentId = sid) (h : submittedIff db = true) :
    submittedIff (updateStudentAssignmentStatus
      { db with
        submissions := db.submissions ++ [⟨db.nextSubmissionId, aid, sid, fileUrl⟩],
        nextSubmissionId := db.nextSubmissionId + 1 } aid sid) = true := by
  rw [submittedIff_iff] at h ⊢
  intro a s
  unfold updateStudentAssignmentStatus
  constructor
  · rintro ⟨sa, hsa, ha, hs, hst⟩
    simp only [List.mem_map] at hsa
    obtain ⟨sa1, hsa1, hupd⟩ := hsa
    by_cases hmatch : sa1.assignmentId = aid ∧ sa1.studentId = sid
    · have hsa_eq : sa = { sa1 with statusId := SubmissionStatus.SUBMITTED } := by
        rw [← hupd]
        simp [hmatch.1, hmatch.2]
      refine ⟨⟨db.nextSubmissionId, aid, sid, fileUrl⟩, by simp, ?_, ?_⟩
      · show aid = a
        rw [← ha, hsa_eq]
        exact hmatch.1.symm
      · show sid = s
        rw [← hs, hsa_eq]
        exact hmatch.2.symm
    · have hsa_eq : sa = sa1 := by
        rw [← hupd]
        have : ¬(sa1.assignmentId == aid && sa1.studentId == sid) = true := by
          simp only [Bool.and_eq_true, beq_iff_eq]
          exact hmatch
        simp [this]
      subst hsa_eq
      obtain ⟨sub, hsub, ha2, hs2⟩ := (h a s).mp ⟨sa, hsa1, ha, hs, hst⟩
      exact ⟨sub, by simp [hsub], ha2, hs2⟩
  · rintro ⟨sub, hsub, ha, hs⟩
    simp only [List.mem_append, List.mem_singleton] at hsub
    rcases hsub with hsub | rfl
    · obtain ⟨sa1, hsa1, ha2, hs2, hst⟩ := (h a s).mpr ⟨sub, hsub, ha, hs⟩
      by_cases hmatch : sa1.assignmentId = aid ∧ sa1.studentId = sid
      · refine ⟨{ sa1 with statusId := SubmissionStatus.SUBMITTED }, ?_, ha2, hs2, rfl⟩
        simp only [List.mem_map]
        exact ⟨sa1, hsa1, by simp [hmatch.1, hmatch.2]⟩
      · refine ⟨sa1, ?_, ha2, hs2, hst⟩
        simp only [List.mem_map]
        refine ⟨sa1, hsa1, ?_⟩
        have : ¬(sa1.assignmentId == aid && sa1.studentId == sid) = true := by
          simp only [Bool.and_eq_true, beq_iff_eq]
          exact hmatch
        simp [this]
    · refine ⟨{ sa0 with statusId := SubmissionStatus.SUBMITTED }, ?_, ?_, ?_, rfl⟩
      · simp only [List.mem_map]
        exact ⟨sa0, hsa0, by simp [ha0, hs0]⟩
      · show sa0.assignmentId = a
        rw [ha0, ← ha]
      · show sa0.studentId = s
        rw [hs0, ← hs]

/-- A successful submission transaction preserves the invariant (given a
StudentAssignment row for the pair). -/
theorem submittedIff_submitTx (db : DBState) (aid sid : Nat)
    (fileUrl : String) (faults : SubmitFaults) (sub : Submission)
    (db2 : DBState)
    (hok : submitTx db aid sid fileUrl faults = .ok (sub, db2))
    (sa0 : StudentAssignment) (hsa0 : sa0 ∈ db.studentAssignments)
    (ha0 : sa0.assignmentId = aid) (hs0 : sa0.studentId = sid)
    (h : submittedIff db = true) : submittedIff db2 = true := by
  unfold submitTx saveSubmission at hok
  rcases hins : faults.insertFails with _ | _
  · rw [hins] at hok
    rcases hdup : db.submissions.any (fun s =>
        s.assignmentId == aid && s.studentId == sid) with _ | _
    · rw [hdup] at hok
      rcases hupd : faults.updateFails with _ | _
      · rw [hupd] at hok
        simp only [Bool.false_eq_true, if_false, Except.ok.injEq,
          Prod.mk.injEq] at hok
        obtain ⟨hsub1, hdb2⟩ := hok
        rw [← hdb2]
        exact submittedIff_submitCommit db aid sid fileUrl sa0 hsa0 ha0 hs0 h
      · rw [hupd] at hok
        simp at hok
    · rw [hdup] at hok
      simp at hok
  · rw [hins] at hok
    simp at hok

/-- The DAO partial update only touches the assignments table and thus
preserves the invariant. -/
theorem submittedIff_updateDAO (db : DBState) (aid : Nat) (f : UpdateFields)
    (h : submittedIff db = true) :
    submittedIff (updateAssignmentDAO db aid f).2 = true := by
  unfold updateAssignmentDAO
  split
  · exact h
  · exact h

/-- A successful creation transaction only inserts an assignment row and
PENDING fan-out rows, preserving the invariant. -/
theorem submittedIff_createTx (db : DBState) (tutorId : Nat) (title : String)
    (description : Option String) (publishedAt dueDate : Int)
    (fileUrl : String) (studentIds : List Nat) (faults : CreateFaults)
    (a : Assignment) (db2 : DBState)
    (hok : createTx db tutorId title description publishedAt dueDate fileUrl
      studentIds faults = .ok (a, db2))
    (h : submittedIff db = true) : submittedIff db2 = true := by
  unfold createTx saveAssignment at hok
  rcases hins : faults.insertAssignmentFails with _ | _
  · rw [hins] at hok
    by_cases hlen : studentIds.length > 0
    · rcases hfan : faults.fanoutFailAfter with _ | k
      · rw [hfan] at hok
        simp only [Bool.false_eq_true, if_false, hlen, if_true,
          Except.ok.injEq, Prod.mk.injEq] at hok
        obtain ⟨ha, hdb2⟩ := hok
        rw [← hdb2]
        apply submittedIff_saveStudentAssignments
        exact h
      · rw [hfan] at hok
        simp [hlen] at hok
    · simp only [Bool.false_eq_true, if_false, hlen, Except.ok.injEq,
        Prod.mk.injEq] at hok
      obtain ⟨ha, hdb2⟩ := hok
      rw [← hdb2]
      exact h
  · rw [hins] at hok
    simp at hok

/-- Every workflow operation preserves the status-consistency invariant. -/
theorem submittedIff_applyOp (db : DBState) (op : Op)
    (h : submittedIff db = true) : submittedIff (applyOp db op) = true := by
  cases op with
  | create username title description publishedAt dueDate file sids uuid
      s3f faults =>
    show submittedIff (createAssignment db username title description
      publishedAt dueDate file sids uuid s3f faults).db = true
    unfold createAssignment
    split
    · exact h
    · split
      · exact h
      · split
        · exact h
        · split
          · rename_i heq
            exact submittedIff_createTx db _ title description publishedAt
              dueDate _ sids faults _ _ heq h
          · exact h
  | update aid username u uuid s3f =>
    show submittedIff (updateAssignmentService db aid username u uuid s3f).2 =
      true
    unfold updateAssignmentService
    split
    · exact h
    · split
      · exact h
      · split
        · exact h
        · split
          · exact h
          · split
            · split
              · exact h
              · exact submittedIff_updateDAO db aid _ h
            · exact submittedIff_updateDAO db aid _ h
  | delete aid username s3df =>
    show submittedIff (deleteAssignment db aid username s3df).2 = true
    unfold deleteAssignment
    split
    · exact h
    · split
      · exact h
      · split
        · exact h
        · split
          · exact h
          · split
            · exact h
            · exact submittedIff_deleteDAO db aid h
  | submit aid username file uuid s3f faults =>
    show submittedIff (addSubmission db aid username file uuid s3f faults).db =
      true
    unfold addSubmission
    split
    · exact h
    · split
      · exact h
      · split
        · exact h
        · split
          · exact h
          · split
            · exact h
            · split
              · rename_i x1 user heq2 hrole x2 sa hsa filex f hs3 x3 sub
                  db2 htx
                unfold getStudentAssignment at hsa
                have hmem := List.mem_of_find?_eq_some hsa
                have hpred := List.find?_some hsa
                simp only [Bool.and_eq_true, beq_iff_eq] at hpred
                exact submittedIff_submitTx db aid user.id _ faults sub db2
                  htx sa hmem hpred.1 hpred.2 h
              · exact h

/-- Any sequence of workflow operations preserves the invariant. -/
theorem submittedIff_applyOps (db : DBState) (ops : List Op)
    (h : submittedIff db = true) : submittedIff (applyOps db ops) = true := by
  induction ops generalizing db with
  | nil => exact h
  | cons op rest ih =>
    show submittedIff (applyOps (applyOp db op) rest) = true
    exact ih _ (submittedIff_applyOp db op h)

/-- C1: status consistency (invariant I2).  Starting from any state in
which, for every (assignment, student) pair, a SUBMITTED StudentAssignment
row exists iff a Submission row exists for the pair, the same holds after
any sequence of workflow operations (create, update, delete, submit, with
arbitrary injected faults): `addSubmission` performs the Submission insert
and the PENDING-to-SUBMITTED update inside one transaction, so no
operation commits one of the two writes without the other. -/
theorem statusConsistencyInvariant (db : DBState) (ops : List Op)
    (h : submittedIff db = true) :
    submittedIff (applyOps db ops) = true ∧
    ∀ aid sid : Nat,
      ((∃ sa ∈ (applyOps db ops).studentAssignments, sa.assignmentId = aid ∧
          sa.studentId = sid ∧ sa.statusId = SubmissionStatus.SUBMITTED) ↔
        (∃ s ∈ (applyOps db ops).submissions, s.assignmentId = aid ∧
          s.studentId = sid)) := by
  have hinv := submittedIff_applyOps db ops h
  exact ⟨hinv, (submittedIff_iff (applyOps db ops)).mp hinv⟩

/-- Witness for C1: from the empty classroom, create assignment 1 for
student 2 and let the student submit; the invariant holds before and
after. -/
theorem statusConsistencyInvariant_witness :
    submittedIff wEmpty = true ∧
    (submittedIff (applyOps wEmpty
      [Op.create "tut" "HW1" none 0 100 ⟨"hw.pdf"⟩ [2] "u1" false ⟨false, none⟩,
       Op.submit 1 "stu" (some ⟨"ans.pdf"⟩) "u2" false ⟨false, false⟩]) = true ∧
     ∀ aid sid : Nat,
      ((∃ sa ∈ (applyOps wEmpty
          [Op.create "tut" "HW1" none 0 100 ⟨"hw.pdf"⟩ [2] "u1" false ⟨false, none⟩,
           Op.submit 1 "stu" (some ⟨"ans.pdf"⟩) "u2" false ⟨false, false⟩]).studentAssignments,
          sa.assignmentId = aid ∧ sa.studentId = sid ∧
          sa.statusId = SubmissionStatus.SUBMITTED) ↔
        (∃ s ∈ (applyOps wEmpty
          [Op.create "tut" "HW1" none 0 100 ⟨"hw.pdf"⟩ [2] "u1" false ⟨false, none⟩,
           Op.submit 1 "stu" (some ⟨"ans.pdf"⟩) "u2" false ⟨false, false⟩]).submissions,
          s.assignmentId = aid ∧ s.studentId = sid))) :=
  ⟨by decide,
   statusConsistencyInvariant wEmpty
     [Op.create "tut" "HW1" none 0 100 ⟨"hw.pdf"⟩ [2] "u1" false ⟨false, none⟩,
      Op.submit 1 "stu" (some ⟨"ans.pdf"⟩) "u2" false ⟨false, false⟩]
     (by decide)⟩

end VC
